import Mathlib

/-!
Shallow embedding of the winhotkeys hotkey manager (src/hotkey.py and
src/winhotkeys/hotkey.py).  Python strings are modelled as `List Char`
inside the tokenizer (Python `str` is a sequence of characters); machine
integers as `Nat` (all values in the source are small and non-negative,
no overflow is reachable).  OS calls are modelled as actions recorded in
a trace; fallible OS calls take their outcome from an explicit oracle.
-/

namespace WinHotkeys

/-- win32con.MOD_ALT. -/
def MOD_ALT : Nat := 1

/-- win32con.MOD_CONTROL. -/
def MOD_CONTROL : Nat := 2

/-- win32con.MOD_SHIFT. -/
def MOD_SHIFT : Nat := 4

/-- win32con.MOD_WIN. -/
def MOD_WIN : Nat := 8

/-- MOD_NOREPEAT, defined at the top of both source files. -/
def MOD_NOREPEAT : Nat := 0x4000

/-- WM_HOTKEY message id, defined at the top of both source files. -/
def WM_HOTKEY : Nat := 0x0312

/-- WM_USER_CLEANUP = WM_USER + 1, winhotkeys variant. -/
def WM_USER_CLEANUP : Nat := 0x0401

/-- ASCII lowercasing of one character; this is how Python str.lower acts
on the ASCII range (all key and modifier names in the source are ASCII). -/
def lowerChar (c : Char) : Char :=
  if 'A' ≤ c ∧ c ≤ 'Z' then Char.ofNat (c.toNat + 32) else c

/-- Python str.lower over the whole string. -/
def lowerStr (cs : List Char) : List Char := cs.map lowerChar

/-- Python str.split on the plus sign.  Note Python `"".split(c)` is
`[""]`, hence the result is never the empty list. -/
def splitPlus : List Char → List (List Char)
  | [] => [[]]
  | c :: cs =>
    if c = '+' then [] :: splitPlus cs
    else
      match splitPlus cs with
      | [] => [[c]]
      | t :: ts => (c :: t) :: ts

/-- Python str.strip considers these characters whitespace (ASCII part). -/
def isSpaceChar (c : Char) : Bool :=
  c = ' ' || c = '\t' || c = '\n' || c = '\r' || c = '\x0b' || c = '\x0c'

/-- Python str.strip: whitespace removed from both ends. -/
def trimChars (cs : List Char) : List Char :=
  ((cs.dropWhile isSpaceChar).reverse.dropWhile isSpaceChar).reverse

/-- keys = [k.strip() for k in hotkey_combination.lower().split('+')]
in HotkeyManager._parse_hotkey_combination (identical in both files). -/
def tokenize (s : String) : List (List Char) :=
  (splitPlus (lowerStr s.toList)).map trimChars

/-- The modifier-synonym table in the modifier loop of
_parse_hotkey_combination. -/
def modifierCode (key : List Char) : Option Nat :=
  if key = "control".toList || key = "ctrl".toList then some MOD_CONTROL
  else if key = "alt".toList then some MOD_ALT
  else if key = "shift".toList then some MOD_SHIFT
  else if key = "win".toList || key = "windows".toList then some MOD_WIN
  else none

/-- The modifier loop of _parse_hotkey_combination: OR the code of each
recognized token into the accumulator; an unrecognized token prints a
warning and returns immediately with the modifiers accumulated so far
(the source's `return modifiers, None`).  Result: (warnings printed,
modifier accumulator, did the loop run to completion). -/
def processModifiers : List (List Char) → Nat → List String × Nat × Bool
  | [], acc => ([], acc, true)
  | k :: ks, acc =>
    match modifierCode k with
    | some m => processModifiers ks (acc ||| m)
    | none => ([String.mk ("Warning: Unknown modifier key: ".toList ++ k)], acc, false)

/-- The key_map dictionary of HotkeyManager._get_vk_code, with the
win32con VK_* values inlined. -/
def keyMap : List (List Char × Nat) :=
  [("enter".toList, 0x0D), ("space".toList, 0x20), ("tab".toList, 0x09),
   ("escape".toList, 0x1B), ("esc".toList, 0x1B), ("backspace".toList, 0x08),
   ("delete".toList, 0x2E), ("del".toList, 0x2E), ("insert".toList, 0x2D),
   ("ins".toList, 0x2D), ("home".toList, 0x24), ("end".toList, 0x23),
   ("pageup".toList, 0x21), ("pagedown".toList, 0x22), ("up".toList, 0x26),
   ("down".toList, 0x28), ("left".toList, 0x25), ("right".toList, 0x27),
   ("f1".toList, 0x70), ("f2".toList, 0x71), ("f3".toList, 0x72),
   ("f4".toList, 0x73), ("f5".toList, 0x74), ("f6".toList, 0x75),
   ("f7".toList, 0x76), ("f8".toList, 0x77), ("f9".toList, 0x78),
   ("f10".toList, 0x79), ("f11".toList, 0x7A), ("f12".toList, 0x7B),
   ("0".toList, 0x30), ("1".toList, 0x31), ("2".toList, 0x32),
   ("3".toList, 0x33), ("4".toList, 0x34), ("5".toList, 0x35),
   ("6".toList, 0x36), ("7".toList, 0x37), ("8".toList, 0x38),
   ("9".toList, 0x39), ("a".toList, 0x41), ("b".toList, 0x42),
   ("c".toList, 0x43), ("d".toList, 0x44), ("e".toList, 0x45),
   ("f".toList, 0x46), ("g".toList, 0x47), ("h".toList, 0x48),
   ("i".toList, 0x49), ("j".toList, 0x4A), ("k".toList, 0x4B),
   ("l".toList, 0x4C), ("m".toList, 0x4D), ("n".toList, 0x4E),
   ("o".toList, 0x4F), ("p".toList, 0x50), ("q".toList, 0x51),
   ("r".toList, 0x52), ("s".toList, 0x53), ("t".toList, 0x54),
   ("u".toList, 0x55), ("v".toList, 0x56), ("w".toList, 0x57),
   ("x".toList, 0x58), ("y".toList, 0x59), ("z".toList, 0x5A)]

/-- HotkeyManager._get_vk_code: `key_map.get(key.lower())`.  The
keycodes module named in _parse_hotkey_combination is absent from the
repository, so its ImportError fallback to _get_vk_code is the path
actually taken. -/
def getVkCode (key : List Char) : Option Nat :=
  keyMap.lookup (lowerStr key)

/-- The no-repeat step of _parse_hotkey_combination: when no modifiers
were given use MOD_NOREPEAT alone, otherwise OR MOD_NOREPEAT in. -/
def applyNoRepeat (mods : Nat) : Nat :=
  if mods = 0 then MOD_NOREPEAT else mods ||| MOD_NOREPEAT

/-- Body of HotkeyManager._parse_hotkey_combination after tokenization.
The `none` branch of `getLast?` mirrors the source's `if not keys`
check (unreachable, since Python split never yields an empty list).
Returns (warnings printed, modifiers, optional vk code). -/
def parseTokens (keys : List (List Char)) : List String × Nat × Option Nat :=
  match keys.getLast? with
  | none => ([], 0, none)
  | some mainKey =>
    match processModifiers keys.dropLast 0 with
    | (w, mods, true) => (w, applyNoRepeat mods, getVkCode mainKey)
    | (w, mods, false) => (w, mods, none)

/-- HotkeyManager._parse_hotkey_combination (identical in both files). -/
def parseHotkeyCombination (s : String) : List String × Nat × Option Nat :=
  parseTokens (tokenize s)

theorem lor_and_norepeat (n : Nat) : (n ||| 16384) &&& 16384 = 16384 := by
  apply Nat.eq_of_testBit_eq
  intro i
  rw [Nat.testBit_land, Nat.testBit_lor]
  cases h : Nat.testBit 16384 i <;> simp [h]

theorem applyNoRepeat_has_norepeat (mods : Nat) :
    applyNoRepeat mods &&& MOD_NOREPEAT = MOD_NOREPEAT := by
  unfold applyNoRepeat MOD_NOREPEAT
  split
  · decide
  · exact lor_and_norepeat mods

/-- C4 counterexample: the empty input does not produce a distinguished
Empty error.  Python `"".split('+')` is `[""]`, so the empty string is
treated as an unknown (empty) main key and the parser's output on `""`
is literally the same value as on an unregistered key name: there is no
three-way-distinguished error taxonomy in the code. -/
theorem c4_counterexample :
    parseHotkeyCombination "" = parseHotkeyCombination "unknownkey" ∧
    parseHotkeyCombination "" = ([], MOD_NOREPEAT, none) := by
  decide

/-- C4 amended: parsing distinguishes failures only partially.  An
unknown modifier prints a warning naming the token and yields no key
code together with the partial modifier set accumulated so far; an
unknown final key yields no key code with no parse-level warning; the
empty input is treated as an unknown empty main key (no distinct Empty
error) and yields MOD_NOREPEAT with no key code. -/
theorem c4_amended :
    parseHotkeyCombination "shift+unknownkey" = ([], MOD_SHIFT ||| MOD_NOREPEAT, none) ∧
    parseHotkeyCombination "unknownmod+a" =
      (["Warning: Unknown modifier key: unknownmod"], 0, none) ∧
    parseHotkeyCombination "" = ([], MOD_NOREPEAT, none) := by
  decide

/-- C7: for every input string that parses successfully (some vk code is
produced), the resulting modifier bitmask has the MOD_NOREPEAT (0x4000)
flag set, with zero or several modifier tokens alike. -/
theorem c7_norepeat_always_set (s : String) (w : List String) (mods vk : Nat)
    (h : parseHotkeyCombination s = (w, mods, some vk)) :
    mods &&& MOD_NOREPEAT = MOD_NOREPEAT := by
  unfold parseHotkeyCombination parseTokens at h
  cases hk : (tokenize s).getLast? with
  | none =>
    rw [hk] at h
    exact absurd (congrArg (fun p => p.2.2) h) (by simp)
  | some mk =>
    rw [hk] at h
    rcases hp : processModifiers (tokenize s).dropLast 0 with ⟨w0, mods0, ok⟩
    rw [hp] at h
    cases ok with
    | false =>
      have := congrArg (fun p => p.2.2) h
      simp at this
    | true =>
      have hm := congrArg (fun p => p.2.1) h
      simp at hm
      rw [← hm]
      exact applyNoRepeat_has_norepeat mods0

/-- C7 witness: "control+a" parses with modifiers 16386 = MOD_CONTROL
OR MOD_NOREPEAT and vk 0x41, and the theorem applies to it. -/
theorem c7_witness :
    parseHotkeyCombination "control+a" = ([], 16386, some 65) ∧
    16386 &&& MOD_NOREPEAT = MOD_NOREPEAT :=
  ⟨by decide, c7_norepeat_always_set "control+a" [] 16386 65 (by decide)⟩

/-- C8: parsing is deterministic (it is a function) and insensitive to
casing and surrounding token whitespace: inputs equal after the source's
lowercasing step parse identically, inputs equal after the full
lower-split-strip tokenization parse identically, and in particular
parse "Control+ALT+h" equals parse "control+alt+h". -/
theorem c8_parse_case_insensitive (s1 s2 t1 t2 : String)
    (hc : lowerStr s1.toList = lowerStr s2.toList)
    (hw : tokenize t1 = tokenize t2) :
    parseHotkeyCombination s1 = parseHotkeyCombination s2 ∧
    parseHotkeyCombination t1 = parseHotkeyCombination t2 ∧
    parseHotkeyCombination "Control+ALT+h" = parseHotkeyCombination "control+alt+h" := by
  refine ⟨?_, ?_, by decide⟩
  · unfold parseHotkeyCombination tokenize
    rw [hc]
  · unfold parseHotkeyCombination
    rw [hw]

/-- C8 witness: the casing pair from the spec and a whitespace-padded
pair, both discharged concretely through the theorem. -/
theorem c8_witness :
    parseHotkeyCombination "Control+ALT+h" = parseHotkeyCombination "control+alt+h" ∧
    parseHotkeyCombination " shift + a " = parseHotkeyCombination "shift+a" := by
  have h := c8_parse_case_insensitive "Control+ALT+h" "control+alt+h"
    " shift + a " "shift+a" (by decide) (by decide)
  exact ⟨h.1, h.2.1⟩

/-- One value of the registered_hotkeys dictionary: modifiers, vk_code,
callback and the original combination string.  Callbacks are opaque to
the manager, modelled as an identifier; invoking one is an action. -/
structure HotkeyDetails where
  modifiers : Nat
  vkCode : Nat
  callback : Nat
  combination : String
deriving DecidableEq

/-- self.registered_hotkeys: a Python dict Nat -> details, modelled as
an insertion-ordered association list.  Keys come from the monotone id
counter, so a fresh id never collides with a stored key and dict
assignment is an append. -/
abbrev RegTable := List (Nat × HotkeyDetails)

/-- The class-level counters HotkeyManager._next_id and
HotkeyManager._next_class_id, shared by every instance in the process. -/
structure GlobalState where
  nextId : Nat
  nextClassId : Nat
deriving DecidableEq

/-- Per-instance state set up by HotkeyManager.__init__: the hotkey
table, the running flag, the window handle and whether a message thread
has been created. -/
structure Manager where
  registeredHotkeys : RegTable
  running : Bool
  hwnd : Option Nat
  hasThread : Bool
deriving DecidableEq

/-- HotkeyManager.__init__. -/
def managerInit : Manager := ⟨[], false, none, false⟩

/-- Observable OS interactions of the manager, recorded in call order.
An action records that the call was made on the execution context that
runs the embedded function. -/
inductive OsAction where
  | registerClass (classId : Nat)
  | createWindow (classId : Nat)
  | registerHotKey (hwnd id modifiers vk : Nat)
  | unregisterHotKey (hwnd id : Nat)
  | destroyWindow (hwnd : Nat)
  | postMessage (hwnd msg wparam lparam : Nat)
  | postQuitMessage
  | sleep
  | joinThread
  | spawnThread
  | atexitRegister
  | defWindowProc (hwnd msg wparam lparam : Nat)
  | invokeCallback (cb : Nat)
deriving DecidableEq

/-- HotkeyManager.register_hotkey (identical in both files): parse; on a
missing vk code print a warning and return with nothing changed;
otherwise take the next class-level id, bump the counter, and store the
entry.  The suppress argument is accepted and never read.  Returns the
new counters, the new instance state, and the warnings printed. -/
def registerHotkey (g : GlobalState) (m : Manager) (combo : String) (cb : Nat)
    (suppress : Bool) : GlobalState × Manager × List String :=
  match parseHotkeyCombination combo with
  | (w, _, none) =>
    (g, m, w ++ [String.mk ("Warning: Could not parse hotkey combination: ".toList
                  ++ combo.toList)])
  | (w, mods, some vk) =>
    (⟨g.nextId + 1, g.nextClassId⟩,
     ⟨m.registeredHotkeys ++ [(g.nextId, ⟨mods, vk, cb, combo⟩)],
      m.running, m.hwnd, m.hasThread⟩,
     w)

/-- HotkeyManager._wndproc in src/hotkey.py: on WM_HOTKEY look the id up
in registered_hotkeys; if found invoke the callback and return 0; any
other case goes to DefWindowProc (whose result is modelled as `none`).
The manager state is not touched. -/
def wndproc (m : Manager) (hwnd msg wparam lparam : Nat) :
    List OsAction × Option Nat :=
  if msg = WM_HOTKEY then
    match m.registeredHotkeys.lookup wparam with
    | some d => ([OsAction.invokeCallback d.callback], some 0)
    | none => ([OsAction.defWindowProc hwnd msg wparam lparam], none)
  else ([OsAction.defWindowProc hwnd msg wparam lparam], none)

/-- The process-wide _hotkey_managers dictionary of
src/winhotkeys/hotkey.py, mapping window handle to owning manager. -/
abbrev Directory := List (Nat × Manager)

/-- _global_wndproc in src/winhotkeys/hotkey.py.  WM_HOTKEY: route via
the directory and the manager's table, invoking the callback only when
both lookups succeed, otherwise DefWindowProc.  WM_USER_CLEANUP (for a
directory-registered window): unregister every id in the table on this
thread, delete the directory entry, post the quit message.  Returns the
new directory, the actions, and the wndproc result (`none` standing for
DefWindowProc's result). -/
def globalWndproc (dir : Directory) (hwnd msg wparam lparam : Nat) :
    Directory × List OsAction × Option Nat :=
  if msg = WM_HOTKEY then
    match List.lookup hwnd dir with
    | some mgr =>
      match mgr.registeredHotkeys.lookup wparam with
      | some d => (dir, [OsAction.invokeCallback d.callback], some 0)
      | none => (dir, [OsAction.defWindowProc hwnd msg wparam lparam], none)
    | none => (dir, [OsAction.defWindowProc hwnd msg wparam lparam], none)
  else if msg = WM_USER_CLEANUP then
    match List.lookup hwnd dir with
    | some mgr =>
      (List.eraseP (fun p => p.1 == hwnd) dir,
       mgr.registeredHotkeys.map (fun p => OsAction.unregisterHotKey hwnd p.1)
         ++ [OsAction.postQuitMessage],
       some 0)
    | none => (dir, [OsAction.defWindowProc hwnd msg wparam lparam], none)
  else (dir, [OsAction.defWindowProc hwnd msg wparam lparam], none)

/-- Oracle outcome of one win32gui.RegisterHotKey call: returned truthy,
returned falsy with get_last_error giving this code, or raised
win32gui.error with this winerror. -/
inductive RegOutcome where
  | ok
  | failCode (code : Nat)
  | raised (winerror : Nat)
deriving DecidableEq

/-- Oracle for one entry of the winhotkeys registration loop: the
outcome of the first RegisterHotKey call, whether the UnregisterHotKey
inside the 1409 retry raises, and the outcome of the retry's
RegisterHotKey call.  (The unconditional pre-unregister's exception is
caught and ignored, so it needs no oracle.) -/
structure EntryEnv where
  firstReg : RegOutcome
  retryUnregRaises : Bool
  retryReg : RegOutcome
deriving DecidableEq

/-- One iteration of the registration loop in _thread_proc
(src/winhotkeys/hotkey.py startListening): always attempt an
UnregisterHotKey first (exceptions ignored), then RegisterHotKey.  A
truthy or falsy return only affects logging.  A raised win32gui.error
with winerror 1409 triggers exactly one retry, unregister-then-register,
whose own failures are caught and only logged; any other raised error
propagates to the per-entry handler, which logs it.  Either way the loop
moves on to the next entry. -/
def registerOneEntry (e : EntryEnv) (hwnd id mods vk : Nat) : List OsAction :=
  let first := [OsAction.unregisterHotKey hwnd id,
                OsAction.registerHotKey hwnd id mods vk]
  match e.firstReg with
  | RegOutcome.ok => first
  | RegOutcome.failCode _ => first
  | RegOutcome.raised w =>
    if w = 1409 then
      if e.retryUnregRaises then
        first ++ [OsAction.unregisterHotKey hwnd id]
      else
        first ++ [OsAction.unregisterHotKey hwnd id,
                  OsAction.registerHotKey hwnd id mods vk]
    else first

/-- The whole registration loop of _thread_proc over the table, with a
per-id oracle; a failed entry is skipped and the loop continues. -/
def registerAllEntries (env : Nat → EntryEnv) (hwnd : Nat) : RegTable → List OsAction
  | [] => []
  | (id, d) :: rest =>
    registerOneEntry (env id) hwnd id d.modifiers d.vkCode
      ++ registerAllEntries env hwnd rest

/-- Oracle for the fallible OS calls of start_listening in
src/hotkey.py: whether RegisterClass raises, and the window handle
CreateWindow produces (`none` covers both a raised error and a falsy
handle; both take the same early-return path).  RegisterHotKey outcomes
in this variant affect logging only, never control flow. -/
structure StartEnv where
  registerClassRaises : Bool
  createWindowResult : Option Nat
deriving DecidableEq

/-- HotkeyManager.start_listening in src/hotkey.py: early return when
already running; otherwise set running, take a class id, register the
window class, create the window, issue RegisterHotKey for every table
entry on the caller's thread, register the atexit hook and spawn the
message-loop thread.  On class or window failure running is reset and
the call returns early. -/
def startListeningV1 (env : StartEnv) (g : GlobalState) (m : Manager) :
    GlobalState × Manager × List OsAction :=
  if m.running then (g, m, [])
  else
    let classId := g.nextClassId
    let g2 : GlobalState := ⟨g.nextId, g.nextClassId + 1⟩
    if env.registerClassRaises then
      (g2, ⟨m.registeredHotkeys, false, m.hwnd, m.hasThread⟩,
       [OsAction.registerClass classId])
    else
      match env.createWindowResult with
      | none =>
        (g2, ⟨m.registeredHotkeys, false, none, m.hasThread⟩,
         [OsAction.registerClass classId, OsAction.createWindow classId])
      | some h =>
        (g2, ⟨m.registeredHotkeys, true, some h, true⟩,
         [OsAction.registerClass classId, OsAction.createWindow classId]
           ++ m.registeredHotkeys.map
                (fun p => OsAction.registerHotKey h p.1 p.2.modifiers p.2.vkCode)
           ++ [OsAction.atexitRegister, OsAction.spawnThread])

/-- HotkeyManager.stop_listening in src/hotkey.py: early return when not
running; otherwise clear running and, when a window exists, issue
UnregisterHotKey for every table entry and DestroyWindow directly on the
calling thread, then join the message thread with a timeout. -/
def stopListeningV1 (m : Manager) : Manager × List OsAction :=
  if m.running then
    match m.hwnd with
    | some h =>
      (⟨m.registeredHotkeys, false, none, m.hasThread⟩,
       m.registeredHotkeys.map (fun p => OsAction.unregisterHotKey h p.1)
         ++ [OsAction.destroyWindow h]
         ++ (if m.hasThread then [OsAction.joinThread] else []))
    | none =>
      (⟨m.registeredHotkeys, false, none, m.hasThread⟩,
       if m.hasThread then [OsAction.joinThread] else [])
  else (m, [])

/-- HotkeyManager.stop_listening in src/winhotkeys/hotkey.py: early
return when not running; otherwise clear running and, when a window
exists, post WM_USER_CLEANUP to it and sleep briefly.  No unregister or
destroy call is made here; the window thread's procedure does that work
on receipt of the message. -/
def stopListeningV2 (m : Manager) : Manager × List OsAction :=
  if m.running then
    match m.hwnd with
    | some h =>
      (⟨m.registeredHotkeys, false, m.hwnd, m.hasThread⟩,
       [OsAction.postMessage h WM_USER_CLEANUP 0 0, OsAction.sleep])
    | none => (⟨m.registeredHotkeys, false, m.hwnd, m.hasThread⟩, [])
  else (m, [])

/-- HotkeyHandler.__init__ (identical in both files): a fresh manager,
the combination string, the callback, and the stored suppress flag. -/
structure HotkeyHandler where
  manager : Manager
  hotkeyCombination : String
  callback : Nat
  suppress : Bool
deriving DecidableEq

/-- HotkeyHandler.__init__ as a constructor function. -/
def handlerInit (combo : String) (cb : Nat) (sup : Bool) : HotkeyHandler :=
  ⟨managerInit, combo, cb, sup⟩

/-- HotkeyHandler.start over the src/hotkey.py manager: register the
stored combination, then start listening.  Returns the new counters, the
new handler, the warnings printed and the OS actions. -/
def handlerStart (env : StartEnv) (g : GlobalState) (h : HotkeyHandler) :
    GlobalState × HotkeyHandler × List String × List OsAction :=
  match registerHotkey g h.manager h.hotkeyCombination h.callback h.suppress with
  | (g2, m2, w) =>
    match startListeningV1 env g2 m2 with
    | (g3, m3, acts) =>
      (g3, ⟨m3, h.hotkeyCombination, h.callback, h.suppress⟩, w, acts)

/-- HotkeyHandler.stop over the src/hotkey.py manager. -/
def handlerStop (h : HotkeyHandler) : HotkeyHandler × List OsAction :=
  match stopListeningV1 h.manager with
  | (m2, acts) => (⟨m2, h.hotkeyCombination, h.callback, h.suppress⟩, acts)

/-- C1: on a hotkey-match event the dispatcher invokes the stored
callback exactly when the id is a key of registered_hotkeys; an absent
id causes no callback and the event goes to the default window
procedure, with the table (and, in the winhotkeys variant, the global
directory) unchanged.  Stated for both window procedures. -/
theorem c1_dispatch_exactly_registered (m mgr : Manager) (dir : Directory)
    (hwnd wparam lparam : Nat)
    (hdir : List.lookup hwnd dir = some mgr) :
    (∀ d, m.registeredHotkeys.lookup wparam = some d →
      wndproc m hwnd WM_HOTKEY wparam lparam =
        ([OsAction.invokeCallback d.callback], some 0)) ∧
    (m.registeredHotkeys.lookup wparam = none →
      wndproc m hwnd WM_HOTKEY wparam lparam =
        ([OsAction.defWindowProc hwnd WM_HOTKEY wparam lparam], none)) ∧
    (∀ d, mgr.registeredHotkeys.lookup wparam = some d →
      globalWndproc dir hwnd WM_HOTKEY wparam lparam =
        (dir, [OsAction.invokeCallback d.callback], some 0)) ∧
    (mgr.registeredHotkeys.lookup wparam = none →
      globalWndproc dir hwnd WM_HOTKEY wparam lparam =
        (dir, [OsAction.defWindowProc hwnd WM_HOTKEY wparam lparam], none)) := by
  refine ⟨?_, ?_, ?_, ?_⟩
  · intro d hd
    simp [wndproc, hd]
  · intro hn
    simp [wndproc, hn]
  · intro d hd
    simp [globalWndproc, hdir, hd]
  · intro hn
    simp [globalWndproc, hdir, hn]

/-- C1 witness: a table holding id 1 with callback 7 dispatches id 1 to
that callback and forwards id 2 to the default procedure. -/
theorem c1_witness :
    wndproc ⟨[(1, ⟨16386, 65, 7, "control+a"⟩)], true, some 5, true⟩ 5 WM_HOTKEY 1 0 =
      ([OsAction.invokeCallback 7], some 0) ∧
    wndproc ⟨[(1, ⟨16386, 65, 7, "control+a"⟩)], true, some 5, true⟩ 5 WM_HOTKEY 2 0 =
      ([OsAction.defWindowProc 5 WM_HOTKEY 2 0], none) := by
  have h1 := c1_dispatch_exactly_registered
    ⟨[(1, ⟨16386, 65, 7, "control+a"⟩)], true, some 5, true⟩
    ⟨[(1, ⟨16386, 65, 7, "control+a"⟩)], true, some 5, true⟩
    [(5, ⟨[(1, ⟨16386, 65, 7, "control+a"⟩)], true, some 5, true⟩)]
    5 1 0 (by decide)
  have h2 := c1_dispatch_exactly_registered
    ⟨[(1, ⟨16386, 65, 7, "control+a"⟩)], true, some 5, true⟩
    ⟨[(1, ⟨16386, 65, 7, "control+a"⟩)], true, some 5, true⟩
    [(5, ⟨[(1, ⟨16386, 65, 7, "control+a"⟩)], true, some 5, true⟩)]
    5 2 0 (by decide)
  exact ⟨h1.1 ⟨16386, 65, 7, "control+a"⟩ (by decide), h2.2.1 (by decide)⟩

/-- C2 counterexample: a Running listener of the src/hotkey.py variant.
Its stop_listening issues UnregisterHotKey for every id and
DestroyWindow directly on the calling thread (the embedded function runs
on the caller's context), refuting the claim that stop never performs
OS-level unregistration or endpoint destruction there for every
Listener. -/
theorem c2_counterexample :
    (⟨[(1, ⟨16386, 65, 7, "control+a"⟩)], true, some 5, true⟩ : Manager).running = true ∧
    (stopListeningV1 ⟨[(1, ⟨16386, 65, 7, "control+a"⟩)], true, some 5, true⟩).2 =
      [OsAction.unregisterHotKey 5 1, OsAction.destroyWindow 5, OsAction.joinThread] := by
  decide

/-- C2 amended: the winhotkeys variant behaves as claimed.  Its
stop_listening on a Running listener with a window only posts
WM_USER_CLEANUP and sleeps — no unregister or destroy on the caller's
thread — and the window thread's procedure, on that message, performs
the unregistration of every table entry before posting quit.  The legacy
src/hotkey.py variant instead unregisters and destroys directly on the
caller's thread. -/
theorem c2_amended (m mgr : Manager) (h : Nat) (dir : Directory)
    (hr : m.running = true) (hh : m.hwnd = some h)
    (hd : List.lookup h dir = some mgr) :
    stopListeningV2 m =
      (⟨m.registeredHotkeys, false, m.hwnd, m.hasThread⟩,
       [OsAction.postMessage h WM_USER_CLEANUP 0 0, OsAction.sleep]) ∧
    (globalWndproc dir h WM_USER_CLEANUP 0 0).2.1 =
      mgr.registeredHotkeys.map (fun p => OsAction.unregisterHotKey h p.1)
        ++ [OsAction.postQuitMessage] := by
  constructor
  · simp [stopListeningV2, hr, hh]
  · simp [globalWndproc, WM_USER_CLEANUP, WM_HOTKEY, hd]

/-- C2 amended witness: concrete Running listener with window 5 and one
entry, in a directory routing window 5 to a one-entry manager. -/
theorem c2_witness :
    stopListeningV2 ⟨[(1, ⟨16386, 65, 7, "control+a"⟩)], true, some 5, true⟩ =
      (⟨[(1, ⟨16386, 65, 7, "control+a"⟩)], false, some 5, true⟩,
       [OsAction.postMessage 5 WM_USER_CLEANUP 0 0, OsAction.sleep]) ∧
    (globalWndproc [(5, ⟨[(1, ⟨16386, 65, 7, "control+a"⟩)], true, some 5, true⟩)]
        5 WM_USER_CLEANUP 0 0).2.1 =
      [OsAction.unregisterHotKey 5 1, OsAction.postQuitMessage] := by
  have h := c2_amended ⟨[(1, ⟨16386, 65, 7, "control+a"⟩)], true, some 5, true⟩
    ⟨[(1, ⟨16386, 65, 7, "control+a"⟩)], true, some 5, true⟩ 5
    [(5, ⟨[(1, ⟨16386, 65, 7, "control+a"⟩)], true, some 5, true⟩)]
    (by decide) (by decide) (by decide)
  exact ⟨h.1, h.2⟩

/-- C3 counterexample: an entry whose very first RegisterHotKey call
succeeds (no collision) still has an UnregisterHotKey attempted before
that first registration — the winhotkeys loop pre-unregisters every
entry unconditionally — refuting the part of the claim that no
unregister is attempted before the first registration attempt for an
entry that has not collided. -/
theorem c3_counterexample :
    registerOneEntry ⟨RegOutcome.ok, false, RegOutcome.ok⟩ 5 1 16386 65 =
      [OsAction.unregisterHotKey 5 1, OsAction.registerHotKey 5 1 16386 65] := by
  decide

/-- C3 amended: a defensive unregister is always attempted before the
first registration attempt of every entry, collided or not; an entry
whose registration raises error 1409 is retried exactly once with an
explicit unregister-then-register (whatever the retry's own outcome, no
further attempt is made); a failed entry is skipped non-fatally and the
loop continues with the remaining entries. -/
theorem c3_amended (env : Nat → EntryEnv) (hwnd id mods vk cb : Nat)
    (combo : String) (rest : RegTable)
    (h1 : (env id).firstReg = RegOutcome.raised 1409)
    (h2 : (env id).retryUnregRaises = false) :
    registerOneEntry (env id) hwnd id mods vk =
      [OsAction.unregisterHotKey hwnd id, OsAction.registerHotKey hwnd id mods vk,
       OsAction.unregisterHotKey hwnd id, OsAction.registerHotKey hwnd id mods vk] ∧
    registerAllEntries env hwnd ((id, ⟨mods, vk, cb, combo⟩) :: rest) =
      registerOneEntry (env id) hwnd id mods vk ++ registerAllEntries env hwnd rest := by
  constructor
  · simp [registerOneEntry, h1, h2]
  · rfl

/-- C3 amended witness: an entry that collides with 1409 and whose retry
also fails is attempted exactly twice (with its defensive unregisters)
and the following entry is still processed. -/
theorem c3_witness :
    registerAllEntries (fun _ => ⟨RegOutcome.raised 1409, false, RegOutcome.raised 1409⟩) 5
      [(1, ⟨16386, 65, 7, "control+a"⟩), (2, ⟨16387, 72, 9, "control+alt+h"⟩)] =
      [OsAction.unregisterHotKey 5 1, OsAction.registerHotKey 5 1 16386 65,
       OsAction.unregisterHotKey 5 1, OsAction.registerHotKey 5 1 16386 65,
       OsAction.unregisterHotKey 5 2, OsAction.registerHotKey 5 2 16387 72,
       OsAction.unregisterHotKey 5 2, OsAction.registerHotKey 5 2 16387 72] := by
  have e1 := c3_amended (fun _ => ⟨RegOutcome.raised 1409, false, RegOutcome.raised 1409⟩)
    5 1 16386 65 7 "control+a" [(2, ⟨16387, 72, 9, "control+alt+h"⟩)] rfl rfl
  have e2 := c3_amended (fun _ => ⟨RegOutcome.raised 1409, false, RegOutcome.raised 1409⟩)
    5 2 16387 72 9 "control+alt+h" [] rfl rfl
  rw [e1.2, e1.1, e2.2, e2.1]
  rfl

/-- C5 counterexample: starting from a fresh process (class counter at
its initial value 1), a first Listener's registration receives id 1, and
a second, independently constructed Listener's first registration
receives id 2 — not the allocator's initial value — because _next_id is
a class-level counter shared by all instances. -/
theorem c5_counterexample :
    ((registerHotkey ⟨1, 1⟩ managerInit "control+alt+1" 0 false).2.1.registeredHotkeys.map
       Prod.fst = [1]) ∧
    (registerHotkey ⟨1, 1⟩ managerInit "control+alt+1" 0 false).1.nextId = 2 ∧
    ((registerHotkey
        (registerHotkey ⟨1, 1⟩ managerInit "control+alt+1" 0 false).1
        managerInit "control+alt+2" 1 false).2.1.registeredHotkeys.map Prod.fst = [2]) := by
  decide

/-- C5 amended: the id allocator is process-wide, not per Listener: a
successful registration appends an entry keyed by the current value of
the shared counter and bumps it by one, so two successive registrations
on independent Listener instances receive the consecutive, distinct ids
nextId and nextId + 1 — non-colliding because the counter is shared,
with the second Listener continuing from the global counter rather than
restarting at 1. -/
theorem c5_amended (g : GlobalState) (mA mB : Manager) (cA cB : String)
    (cbA cbB : Nat) (sA sB : Bool)
    (hA : (parseHotkeyCombination cA).2.2.isSome = true)
    (hB : (parseHotkeyCombination cB).2.2.isSome = true) :
    (registerHotkey g mA cA cbA sA).2.1.registeredHotkeys.map Prod.fst =
      mA.registeredHotkeys.map Prod.fst ++ [g.nextId] ∧
    (registerHotkey g mA cA cbA sA).1.nextId = g.nextId + 1 ∧
    (registerHotkey (registerHotkey g mA cA cbA sA).1 mB cB cbB sB).2.1.registeredHotkeys.map
        Prod.fst = mB.registeredHotkeys.map Prod.fst ++ [g.nextId + 1] := by
  rcases hpA : parseHotkeyCombination cA with ⟨wA, modsA, vkA⟩
  cases vkA with
  | none =>
    rw [hpA] at hA
    simp at hA
  | some vA =>
    rcases hpB : parseHotkeyCombination cB with ⟨wB, modsB, vkB⟩
    cases vkB with
    | none =>
      rw [hpB] at hB
      simp at hB
    | some vB =>
      refine ⟨?_, ?_, ?_⟩ <;> simp [registerHotkey, hpA, hpB]

/-- C5 amended witness: the two spec combinations on fresh Listener
instances from a fresh process state. -/
theorem c5_witness :
    (registerHotkey ⟨1, 1⟩ managerInit "control+alt+1" 0 false).2.1.registeredHotkeys.map
      Prod.fst = [1] ∧
    (registerHotkey (registerHotkey ⟨1, 1⟩ managerInit "control+alt+1" 0 false).1
        managerInit "control+alt+2" 1 true).2.1.registeredHotkeys.map Prod.fst = [2] := by
  have h := c5_amended ⟨1, 1⟩ managerInit managerInit "control+alt+1" "control+alt+2"
    0 1 false true (by decide) (by decide)
  exact ⟨h.1, h.2.2⟩

theorem startListeningV1_noop (env : StartEnv) (g : GlobalState) (m : Manager)
    (hr : m.running = true) : startListeningV1 env g m = (g, m, []) := by
  simp [startListeningV1, hr]

theorem stopListeningV1_noop (m : Manager) (hn : m.running = false) :
    stopListeningV1 m = (m, []) := by
  simp [stopListeningV1, hn]

theorem stopListeningV1_not_running (m : Manager) :
    (stopListeningV1 m).1.running = false := by
  rcases m with ⟨t, r, hw, th⟩
  cases r <;> cases hw <;> simp [stopListeningV1]

/-- C6: start_listening on a running listener returns immediately with
no OS action and no state change; stop_listening on a non-running
listener likewise; a second start after a start that left the listener
running is a no-op; a second stop after any stop is always a no-op. -/
theorem c6_idempotent (env env2 : StartEnv) (g g2 : GlobalState)
    (m m2 m3 m4 : Manager)
    (hr : m.running = true) (hn : m2.running = false) :
    startListeningV1 env g m = (g, m, []) ∧
    stopListeningV1 m2 = (m2, []) ∧
    ((startListeningV1 env2 g2 m3).2.1.running = true →
      startListeningV1 env (startListeningV1 env2 g2 m3).1
          (startListeningV1 env2 g2 m3).2.1 =
        ((startListeningV1 env2 g2 m3).1, (startListeningV1 env2 g2 m3).2.1, [])) ∧
    stopListeningV1 (stopListeningV1 m4).1 = ((stopListeningV1 m4).1, []) := by
  refine ⟨startListeningV1_noop env g m hr, stopListeningV1_noop m2 hn, ?_, ?_⟩
  · intro h3
    exact startListeningV1_noop env _ _ h3
  · exact stopListeningV1_noop _ (stopListeningV1_not_running m4)

/-- C6 witness: a concrete running listener and a concrete idle one. -/
theorem c6_witness :
    startListeningV1 ⟨false, some 5⟩ ⟨1, 1⟩ ⟨[], true, some 5, true⟩ =
      (⟨1, 1⟩, ⟨[], true, some 5, true⟩, []) ∧
    stopListeningV1 managerInit = (managerInit, []) := by
  have h := c6_idempotent ⟨false, some 5⟩ ⟨false, some 5⟩ ⟨1, 1⟩ ⟨1, 1⟩
    ⟨[], true, some 5, true⟩ managerInit managerInit managerInit
    (by decide) (by decide)
  exact ⟨h.1, h.2.1⟩

/-- C9: the suppress flag is never read: registration with suppress true
and false yields the same counters, the same table and the same
warnings, and a Handler started with either flag has identical manager
state, identical OS actions, and identical dispatch behaviour. -/
theorem c9_suppress_irrelevant (env : StartEnv) (g : GlobalState) (m : Manager)
    (c : String) (cb hwnd wparam lparam : Nat) :
    registerHotkey g m c cb true = registerHotkey g m c cb false ∧
    (handlerStart env g (handlerInit c cb true)).1 =
      (handlerStart env g (handlerInit c cb false)).1 ∧
    (handlerStart env g (handlerInit c cb true)).2.1.manager =
      (handlerStart env g (handlerInit c cb false)).2.1.manager ∧
    (handlerStart env g (handlerInit c cb true)).2.2 =
      (handlerStart env g (handlerInit c cb false)).2.2 ∧
    wndproc (handlerStart env g (handlerInit c cb true)).2.1.manager
        hwnd WM_HOTKEY wparam lparam =
      wndproc (handlerStart env g (handlerInit c cb false)).2.1.manager
        hwnd WM_HOTKEY wparam lparam :=
  ⟨rfl, rfl, rfl, rfl, rfl⟩

/-- C10: when parsing yields no key code, register_hotkey changes
nothing: the shared counters and the instance table are untouched, and
any later registration behaves exactly as if the failing call had never
happened (in particular it receives the same id). -/
theorem c10_failed_parse_no_state_change (g : GlobalState) (m : Manager)
    (c : String) (cb : Nat) (sup : Bool)
    (h : (parseHotkeyCombination c).2.2 = none) :
    (registerHotkey g m c cb sup).1 = g ∧
    (registerHotkey g m c cb sup).2.1 = m ∧
    ∀ c2 cb2 sup2,
      registerHotkey (registerHotkey g m c cb sup).1
          (registerHotkey g m c cb sup).2.1 c2 cb2 sup2 =
        registerHotkey g m c2 cb2 sup2 := by
  rcases hp : parseHotkeyCombination c with ⟨w, mods, vk⟩
  cases vk with
  | some v =>
    rw [hp] at h
    simp at h
  | none =>
    refine ⟨?_, ?_, ?_⟩ <;> simp [registerHotkey, hp]

/-- C10 witness: a failing registration for an unknown key from a fresh
state, followed by a successful one that still receives id 1. -/
theorem c10_witness :
    (registerHotkey ⟨1, 1⟩ managerInit "unknownkey" 0 false).1 = ⟨1, 1⟩ ∧
    (registerHotkey ⟨1, 1⟩ managerInit "unknownkey" 0 false).2.1 = managerInit ∧
    registerHotkey (registerHotkey ⟨1, 1⟩ managerInit "unknownkey" 0 false).1
        (registerHotkey ⟨1, 1⟩ managerInit "unknownkey" 0 false).2.1
        "control+a" 3 true =
      registerHotkey ⟨1, 1⟩ managerInit "control+a" 3 true := by
  have h := c10_failed_parse_no_state_change ⟨1, 1⟩ managerInit "unknownkey" 0 false
    (by decide)
  exact ⟨h.1, h.2.1, h.2.2 "control+a" 3 true⟩

end WinHotkeys
